import Mathlib

/-!
Verification of the Prejoin screen component
(src/react/features/prejoin/components/Prejoin.js).

The component is a React class component holding one piece of local state
(the boolean showJoinByPhoneButtons, i.e. whether the options dropdown is
open) and receiving props from a redux state projection. Its handlers are
embedded here as effect traces: each handler is a list of ordered effects
(dispatched redux actions, local setState calls, event stopPropagation),
and runEffects interprets such a trace over the local state.
-/

/-- The props received by the Prejoin component (the function-valued props
are modelled by the Handler identifiers below where their identity matters;
the opaque videoTrack handle is omitted since no claim mentions it). -/
structure PrejoinProps where
  buttonIsToggled : Bool
  deviceStatusVisible : Bool
  hasJoinByPhoneButton : Bool
  joinButtonDisabled : Bool
  name : String
  roomName : String
  showAvatar : Bool
  showCameraPreview : Bool
  showJoinActions : Bool
  showDialog : Bool
deriving DecidableEq

/-- The local component state: the single flag created in the constructor
with value false. -/
structure PrejoinState where
  showJoinByPhoneButtons : Bool
deriving DecidableEq, Fintype

/-- The redux actions the component can dispatch through its dispatch
props. The misspelling setJoinByPhoneDialogVisiblity is kept from the
source. -/
inductive ReduxAction where
  | joinConference
  | joinConferenceWithoutAudio
  | setSkipPrejoin (value : Bool)
  | setJoinByPhoneDialogVisiblity (visible : Bool)
  | updateSettings (displayName : String)
deriving DecidableEq

/-- One primitive side effect performed by a handler, in program order. -/
inductive Effect where
  | dispatch (a : ReduxAction)
  | setShowJoinByPhoneButtons (value : Bool)
  | stopPropagation
deriving DecidableEq

/-- The observable outcome of running a handler: the resulting local
state, the dispatched actions in order, and whether the triggering event
had its propagation stopped. -/
structure EffectResult where
  state : PrejoinState
  dispatched : List ReduxAction
  propagationStopped : Bool
deriving DecidableEq

/-- Interprets a single effect. -/
def applyEffect (r : EffectResult) (e : Effect) : EffectResult :=
  match e with
  | Effect.dispatch a => { r with dispatched := r.dispatched ++ [a] }
  | Effect.setShowJoinByPhoneButtons b =>
      { r with state := { showJoinByPhoneButtons := b } }
  | Effect.stopPropagation => { r with propagationStopped := true }

/-- Runs an effect trace from a local state, starting with no dispatched
actions and a freshly delivered event. -/
def runEffects (effects : List Effect) (s : PrejoinState) : EffectResult :=
  effects.foldl applyEffect
    { state := s, dispatched := [], propagationStopped := false }

/-- Handler for the toggle button: dispatches setSkipPrejoin with the
negation of the buttonIsToggled prop (source lines 168-170). -/
def Prejoin._onToggleButtonClick (props : PrejoinProps) : List Effect :=
  [Effect.dispatch (ReduxAction.setSkipPrejoin (!props.buttonIsToggled))]

/-- Closes the dropdown: setState showJoinByPhoneButtons := false
(source lines 179-183). -/
def Prejoin._onDropdownClose : List Effect :=
  [Effect.setShowJoinByPhoneButtons false]

/-- Handler for clicks on the options toggle: stops event propagation,
then setState showJoinByPhoneButtons to its negation
(source lines 193-199). -/
def Prejoin._onOptionsClick (state : PrejoinState) : List Effect :=
  [Effect.stopPropagation,
   Effect.setShowJoinByPhoneButtons (!state.showJoinByPhoneButtons)]

/-- Sets the guest participant name: dispatches updateSettings with the
new display name (source lines 209-213). -/
def Prejoin._setName (displayName : String) : List Effect :=
  [Effect.dispatch (ReduxAction.updateSettings displayName)]

/-- Closes the join-by-phone dialog: dispatches the dialog visibility
action with false (source lines 222-224). -/
def Prejoin._closeDialog : List Effect :=
  [Effect.dispatch (ReduxAction.setJoinByPhoneDialogVisiblity false)]

/-- Opens the join-by-phone dialog: dispatches the dialog visibility
action with true, then calls the dropdown close handler
(source lines 233-236). -/
def Prejoin._showDialog : List Effect :=
  Effect.dispatch (ReduxAction.setJoinByPhoneDialogVisiblity true)
    :: Prejoin._onDropdownClose

/-- Identifiers for the component methods and callback props, used to
state which callback the render output installs at each hook. -/
inductive Handler where
  | closeDialog
  | showDialog
  | onToggleButtonClick
  | onDropdownClose
  | onOptionsClick
  | setName
  | joinConference
  | joinConferenceWithoutAudio
deriving DecidableEq, Fintype

/-- The abstraction of the render tree (source lines 262-325) that the
claims talk about: which elements are present, which callbacks are
installed, and whether the dropdown is open. -/
structure RenderOutput where
  showConferenceInfo : Bool
  nameInputRendered : Bool
  joinButtonRendered : Bool
  joinButtonDisabled : Bool
  dropdownRendered : Bool
  dropdownOpen : Bool
  dropdownOnClose : Option Handler
  dropdownJoinWithoutAudioOption : Bool
  dropdownJoinByPhoneOption : Bool
  dialogRendered : Bool
  dialogOnClose : Option Handler
  footerDeviceStatus : Bool
  skipPrejoinToggled : Bool
deriving DecidableEq

/-- The render method: the join-actions block (input field, dropdown
container, join button) is emitted iff showJoinActions; the InlineDialog
is open iff the local flag is set; the join-by-phone option inside the
dropdown content is emitted iff hasJoinByPhoneButton; the JoinByPhoneDialog
is emitted iff showDialog, with _closeDialog as its onClose; the footer
holds DeviceStatus iff deviceStatusVisible. -/
def Prejoin.render (props : PrejoinProps) (state : PrejoinState) :
    RenderOutput :=
  { showConferenceInfo := props.showJoinActions
    nameInputRendered := props.showJoinActions
    joinButtonRendered := props.showJoinActions
    joinButtonDisabled := props.joinButtonDisabled
    dropdownRendered := props.showJoinActions
    dropdownOpen := props.showJoinActions && state.showJoinByPhoneButtons
    dropdownOnClose :=
      if props.showJoinActions then some Handler.onDropdownClose else none
    dropdownJoinWithoutAudioOption := props.showJoinActions
    dropdownJoinByPhoneOption :=
      props.showJoinActions && props.hasJoinByPhoneButton
    dialogRendered := props.showDialog
    dialogOnClose :=
      if props.showDialog then some Handler.closeDialog else none
    footerDeviceStatus := props.deviceStatusVisible
    skipPrejoinToggled := props.buttonIsToggled }

/-- The value the static defaultProps table assigns to showJoinActions
(source lines 136-138). -/
def Prejoin.defaultProps_showJoinActions : Bool := true

/-- React semantics of defaultProps: a prop left unsupplied by the caller
(none) takes the default value. -/
def resolveShowJoinActions (supplied : Option Bool) : Bool :=
  supplied.getD Prejoin.defaultProps_showJoinActions

/-- The global redux state, abstracted to the results of the external
selector functions that mapStateToProps consults. The selectors themselves
live outside this file (base/settings, base/conference, base/media,
prejoin/functions); a display name that is absent is modelled as the empty
string, matching its JS falsiness. -/
structure GlobalState where
  displayName : String
  displayNameRequired : Bool
  prejoinSkipped : Bool
  deviceStatusShown : Bool
  theRoomName : String
  joinByPhoneDialogShown : Bool
  joinByPhoneButtonShown : Bool
  videoMutedByUser : Bool
deriving DecidableEq

def getDisplayName (s : GlobalState) : String := s.displayName

def isDisplayNameRequired (s : GlobalState) : Bool := s.displayNameRequired

def isPrejoinSkipped (s : GlobalState) : Bool := s.prejoinSkipped

def isDeviceStatusVisible (s : GlobalState) : Bool := s.deviceStatusShown

def getRoomName (s : GlobalState) : String := s.theRoomName

def isJoinByPhoneDialogVisible (s : GlobalState) : Bool :=
  s.joinByPhoneDialogShown

def isJoinByPhoneButtonVisible (s : GlobalState) : Bool :=
  s.joinByPhoneButtonShown

def isVideoMutedByUser (s : GlobalState) : Bool := s.videoMutedByUser

/-- JS logical negation applied to a string value: a string is falsy
exactly when it is empty. -/
def jsNotString (s : String) : Bool := s == ""

/-- The props computed by mapStateToProps (source lines 363-378). -/
structure MappedProps where
  buttonIsToggled : Bool
  joinButtonDisabled : Bool
  name : String
  deviceStatusVisible : Bool
  roomName : String
  showDialog : Bool
  hasJoinByPhoneButton : Bool
  showCameraPreview : Bool
deriving DecidableEq

/-- The redux state projection mapStateToProps: in particular
joinButtonDisabled = isDisplayNameRequired(state) && !name. -/
def mapStateToProps (state : GlobalState) : MappedProps :=
  let name := getDisplayName state
  { buttonIsToggled := isPrejoinSkipped state
    joinButtonDisabled := isDisplayNameRequired state && jsNotString name
    name := name
    deviceStatusVisible := isDeviceStatusVisible state
    roomName := getRoomName state
    showDialog := isJoinByPhoneDialogVisible state
    hasJoinByPhoneButton := isJoinByPhoneButtonVisible state
    showCameraPreview := !isVideoMutedByUser state }

/-- A concrete global state with the given display name and
display-name-required flag, all other selector results false or empty. -/
def mkGlobalState (displayName : String) (required : Bool) : GlobalState :=
  { displayName := displayName
    displayNameRequired := required
    prejoinSkipped := false
    deviceStatusShown := false
    theRoomName := ""
    joinByPhoneDialogShown := false
    joinByPhoneButtonShown := false
    videoMutedByUser := false }

/-- The closed-loop system state for the dialog/dropdown interaction:
the redux-owned dialog visibility flag (fed back into the showDialog prop
by the synchronous dispatch loop) together with the local dropdown flag. -/
structure SysState where
  dialogVisible : Bool
  dropdownOpen : Bool
deriving DecidableEq, Fintype

/-- The user events that can reach the dialog/dropdown state. -/
inductive UiEvent where
  | optionsClick
  | dropdownClose
  | phoneOptionClick
  | dialogDismiss
deriving DecidableEq, Fintype

/-- Modelled from the spec: the JoinByPhoneDialog component itself is not
part of this excerpt; section 6 of the spec describes it as a modal dialog
child, so while it is visible the controls underneath it (the options
toggle, the dropdown and its options) cannot receive clicks, and the only
reachable event is its own close callback. Under that guard, each event is
interpreted by the handler it is wired to in render: optionsClick runs
_onOptionsClick (toggle the flag), dropdownClose runs _onDropdownClose
(clear the flag), phoneOptionClick runs _showDialog (dispatch visible=true
then clear the flag; it requires the dropdown content to be open since the
phone option lives inside it), and dialogDismiss runs _closeDialog
(dispatch visible=false). -/
def step (s : SysState) (e : UiEvent) : Option SysState :=
  match e with
  | UiEvent.optionsClick =>
      if s.dialogVisible then none
      else some { s with dropdownOpen := !s.dropdownOpen }
  | UiEvent.dropdownClose =>
      if s.dialogVisible then none
      else some { s with dropdownOpen := false }
  | UiEvent.phoneOptionClick =>
      if s.dialogVisible || !s.dropdownOpen then none
      else some { dialogVisible := true, dropdownOpen := false }
  | UiEvent.dialogDismiss =>
      if s.dialogVisible then some { s with dialogVisible := false }
      else none

/-- The states reachable from the initial configuration: dropdown closed
(the constructor sets showJoinByPhoneButtons to false) and dialog hidden. -/
inductive ReachableSys : SysState → Prop where
  | init : ReachableSys { dialogVisible := false, dropdownOpen := false }
  | trans : ∀ s e t, ReachableSys s → step s e = some t → ReachableSys t

/-- The props seen by the component in a given closed-loop system state,
in the scenario where the join actions and the phone button are shown. -/
def sysProps (s : SysState) : PrejoinProps :=
  { buttonIsToggled := false
    deviceStatusVisible := false
    hasJoinByPhoneButton := true
    joinButtonDisabled := false
    name := ""
    roomName := ""
    showAvatar := false
    showCameraPreview := false
    showJoinActions := true
    showDialog := s.dialogVisible }

/-- Every state produced by a step of the closed-loop system has the
dialog visibility flag and the dropdown flag not both set. -/
theorem step_post_exclusive :
    ∀ (s : SysState) (e : UiEvent) (t : SysState),
      step s e = some t →
      ¬(t.dialogVisible = true ∧ t.dropdownOpen = true) := by
  decide

/-- Claim C1: in every reachable combination of the local dropdown flag
and the dialog visibility, the join-by-phone dialog and the options
dropdown are never both displayed at once; moreover every step that makes
the dialog visible also sets the dropdown flag to false. -/
theorem C1_dialog_dropdown_exclusive :
    (∀ s : SysState, ReachableSys s →
      ¬((Prejoin.render (sysProps s) ⟨s.dropdownOpen⟩).dialogRendered = true ∧
        (Prejoin.render (sysProps s) ⟨s.dropdownOpen⟩).dropdownOpen = true)) ∧
    (∀ (s : SysState) (e : UiEvent) (t : SysState), step s e = some t →
      s.dialogVisible = false → t.dialogVisible = true →
      t.dropdownOpen = false) := by
  refine ⟨?_, by decide⟩
  intro s hs
  have key : ¬(s.dialogVisible = true ∧ s.dropdownOpen = true) := by
    induction hs with
    | init => simp
    | trans u e t _ hstep _ => exact step_post_exclusive u e t hstep
  simpa [Prejoin.render, sysProps] using key

/-- Witness for C1 at concrete inputs: the initial state satisfies the
exclusion, and the step that opens the dialog from a state with the
dropdown open clears the dropdown flag. -/
theorem C1_dialog_dropdown_exclusive_witness :
    ¬((Prejoin.render
        (sysProps { dialogVisible := false, dropdownOpen := false })
        ⟨false⟩).dialogRendered = true ∧
      (Prejoin.render
        (sysProps { dialogVisible := false, dropdownOpen := false })
        ⟨false⟩).dropdownOpen = true) ∧
    ({ dialogVisible := true, dropdownOpen := false } : SysState).dropdownOpen
      = false :=
  ⟨C1_dialog_dropdown_exclusive.1
      { dialogVisible := false, dropdownOpen := false } ReachableSys.init,
   C1_dialog_dropdown_exclusive.2
      { dialogVisible := false, dropdownOpen := true }
      UiEvent.phoneOptionClick
      { dialogVisible := true, dropdownOpen := false }
      (by decide) rfl rfl⟩

/-- Claim C2: the open-phone-dialog handler first dispatches the dialog
visibility action with true and then clears the local dropdown flag, in
that order; for every prior dropdown state the run ends with the dropdown
flag false and exactly that one dispatched action. -/
theorem C2_showDialog_order :
    Prejoin._showDialog
      = [Effect.dispatch (ReduxAction.setJoinByPhoneDialogVisiblity true),
         Effect.setShowJoinByPhoneButtons false] ∧
    ∀ s : PrejoinState,
      (runEffects Prejoin._showDialog s).state.showJoinByPhoneButtons
        = false ∧
      (runEffects Prejoin._showDialog s).dispatched
        = [ReduxAction.setJoinByPhoneDialogVisiblity true] :=
  ⟨rfl, fun s => ⟨rfl, rfl⟩⟩

/-- Counterexample to claim C3 as stated: the callback installed as the
phone dialog onClose hook is the close-dialog handler, not the
dropdown-close handler, and running it from a state with the dropdown open
leaves the dropdown flag true instead of setting it to false. -/
theorem C3_dialog_onClose_counterexample :
    (Prejoin.render (sysProps { dialogVisible := true, dropdownOpen := true })
        ⟨true⟩).dialogOnClose = some Handler.closeDialog ∧
    (Prejoin.render (sysProps { dialogVisible := true, dropdownOpen := true })
        ⟨true⟩).dialogOnClose ≠ some Handler.onDropdownClose ∧
    (runEffects Prejoin._closeDialog ⟨true⟩).state.showJoinByPhoneButtons
      = true := by
  refine ⟨rfl, by decide, rfl⟩

/-- Claim C3 amended: the dropdown-close handler is installed as the
options dropdown onClose hook (it sets the dropdown flag to false); the
phone dialog onClose hook is instead the close-dialog handler, which
dispatches dialog-visible = false and leaves the local dropdown flag
unchanged, so dismissing the phone dialog does not reset the dropdown. -/
theorem C3_onClose_hooks :
    ∀ (p : PrejoinProps) (s : PrejoinState),
      (Prejoin.render p s).dropdownOnClose
        = (if p.showJoinActions then some Handler.onDropdownClose else none) ∧
      (Prejoin.render p s).dialogOnClose
        = (if p.showDialog then some Handler.closeDialog else none) ∧
      (runEffects Prejoin._onDropdownClose s).state.showJoinByPhoneButtons
        = false ∧
      (runEffects Prejoin._closeDialog s).state = s ∧
      (runEffects Prejoin._closeDialog s).dispatched
        = [ReduxAction.setJoinByPhoneDialogVisiblity false] :=
  fun p s => ⟨rfl, rfl, rfl, rfl, rfl⟩

/-- Claim C4: the joinButtonDisabled prop computed by mapStateToProps
equals (display name required AND projected name empty); with an empty
name and the requirement set it is true, with name Alice it is false. -/
theorem C4_joinButtonDisabled :
    (∀ s : GlobalState, (mapStateToProps s).joinButtonDisabled
        = (isDisplayNameRequired s && (getDisplayName s == ""))) ∧
    (∀ s : GlobalState, getDisplayName s = "" →
        isDisplayNameRequired s = true →
        (mapStateToProps s).joinButtonDisabled = true) ∧
    (∀ s : GlobalState, getDisplayName s = "Alice" →
        (mapStateToProps s).joinButtonDisabled = false) := by
  refine ⟨fun s => rfl, fun s h1 h2 => ?_, fun s h => ?_⟩
  · simp [mapStateToProps, jsNotString, h1, h2]
  · simp [mapStateToProps, jsNotString, h]

/-- Witness for C4 at concrete global states. -/
theorem C4_joinButtonDisabled_witness :
    (mapStateToProps (mkGlobalState "" true)).joinButtonDisabled = true ∧
    (mapStateToProps (mkGlobalState "Alice" true)).joinButtonDisabled
      = false :=
  ⟨C4_joinButtonDisabled.2.1 (mkGlobalState "" true) rfl rfl,
   C4_joinButtonDisabled.2.2 (mkGlobalState "Alice" true) rfl⟩

/-- Claim C5: the options click handler first stops event propagation and
then sets the dropdown flag to its negation; applying the handler twice
returns the flag to its original value. -/
theorem C5_optionsClick_toggle :
    ∀ s : PrejoinState,
      (Prejoin._onOptionsClick s).head? = some Effect.stopPropagation ∧
      (runEffects (Prejoin._onOptionsClick s) s).propagationStopped = true ∧
      (runEffects (Prejoin._onOptionsClick s) s).state.showJoinByPhoneButtons
        = !s.showJoinByPhoneButtons ∧
      (runEffects
          (Prejoin._onOptionsClick
            (runEffects (Prejoin._onOptionsClick s) s).state)
          (runEffects (Prejoin._onOptionsClick s) s).state).state
        = s := by
  decide

/-- Claim C6: with showJoinActions false, the name input, the join button
and the options dropdown are not rendered, for every other prop valuation
and every local state. -/
theorem C6_no_join_actions :
    ∀ (p : PrejoinProps) (s : PrejoinState),
      (Prejoin.render { p with showJoinActions := false } s).nameInputRendered
        = false ∧
      (Prejoin.render { p with showJoinActions := false } s).joinButtonRendered
        = false ∧
      (Prejoin.render { p with showJoinActions := false } s).dropdownRendered
        = false ∧
      (Prejoin.render { p with showJoinActions := false } s).dropdownOpen
        = false :=
  fun p s => ⟨rfl, rfl, rfl, rfl⟩

/-- Claim C7: with showJoinActions true and hasJoinByPhoneButton false,
the dropdown content offers no join-by-phone option, only the
join-without-audio option. -/
theorem C7_no_phone_option :
    ∀ (p : PrejoinProps) (s : PrejoinState),
      (Prejoin.render
          { p with showJoinActions := true, hasJoinByPhoneButton := false }
          s).dropdownJoinByPhoneOption = false ∧
      (Prejoin.render
          { p with showJoinActions := true, hasJoinByPhoneButton := false }
          s).dropdownJoinWithoutAudioOption = true :=
  fun p s => ⟨rfl, rfl⟩

/-- Claim C8: for every buttonIsToggled prop value, the toggle handler
dispatches setSkipPrejoin with exactly its negation and nothing else, and
leaves the local state unchanged. -/
theorem C8_toggle_dispatch :
    ∀ (p : PrejoinProps) (s : PrejoinState),
      Prejoin._onToggleButtonClick p
        = [Effect.dispatch (ReduxAction.setSkipPrejoin (!p.buttonIsToggled))] ∧
      (runEffects (Prejoin._onToggleButtonClick p) s).dispatched
        = [ReduxAction.setSkipPrejoin (!p.buttonIsToggled)] ∧
      (runEffects (Prejoin._onToggleButtonClick p) s).state = s :=
  fun p s => ⟨rfl, rfl, rfl⟩

/-- Claim C9: when the caller leaves showJoinActions unsupplied it
defaults to true, so the name input, join button and dropdown render by
default. -/
theorem C9_default_showJoinActions :
    resolveShowJoinActions none = true ∧
    ∀ (p : PrejoinProps) (s : PrejoinState),
      (Prejoin.render
          { p with showJoinActions := resolveShowJoinActions none }
          s).nameInputRendered = true ∧
      (Prejoin.render
          { p with showJoinActions := resolveShowJoinActions none }
          s).joinButtonRendered = true ∧
      (Prejoin.render
          { p with showJoinActions := resolveShowJoinActions none }
          s).dropdownRendered = true :=
  ⟨rfl, fun p s => ⟨rfl, rfl, rfl⟩⟩

/-- Claim C10: the close-dialog handler dispatches the dialog visibility
action with false and leaves the local dropdown flag unchanged. -/
theorem C10_closeDialog_frame :
    ∀ s : PrejoinState,
      (runEffects Prejoin._closeDialog s).dispatched
        = [ReduxAction.setJoinByPhoneDialogVisiblity false] ∧
      (runEffects Prejoin._closeDialog s).state = s :=
  fun s => ⟨rfl, rfl⟩
